import Mathlib

/-!
Shallow embedding of the deck.gl `ViewportControls` event controller together
with a model of the `MapState` viewport state it drives.  The controller code
is translated directly from the source file; `MapState`, the interpolator and
the transition constants it references are not part of the provided sources,
so their operations are modelled from the specification (their doc comments
start with `Modelled from the spec:`).  JavaScript numbers are idealised as
real numbers; callback invocations are recorded in an explicit trace.
-/

namespace DeckGL

/-- The externally visible viewport properties (spec, data model section):
longitude, latitude, zoom, bearing, pitch, width, height. -/
@[ext]
structure ViewportProps where
  longitude : ℝ
  latitude : ℝ
  zoom : ℝ
  bearing : ℝ
  pitch : ℝ
  width : ℝ
  height : ℝ

/-- Transient interaction state reported by the viewport state.  The spec-level
`startPinchRotation` field is kept separately in `CtrlState`, because the
controller writes it into `_state` directly and `getInteractiveState` must not
overwrite it for the pinch-rotation compensation to work. -/
structure InteractionState where
  isDragging : Bool
  isPanning : Bool
  isRotating : Bool
  isZooming : Bool
  inTransition : Bool

/-- The controller's `_state` record: interaction state plus the
`startPinchRotation` field written directly by `_onPinchStart`. -/
structure CtrlState where
  interaction : InteractionState
  startPinchRotation : ℝ

/-- Transition interruption policy (`TRANSITION_EVENTS` of the transition
manager; modelled from the spec: enum BREAK, IGNORE, SNAP). -/
inductive TransitionInterruption
  | BREAK
  | IGNORE
  | SNAP

/-- Modelled from the spec: the linear interpolator interpolates each numeric
field independently: `interpolate(a, b, t) = a + (b - a) * t` per field. -/
noncomputable def linearInterpolate (a b : ViewportProps) (t : ℝ) : ViewportProps where
  longitude := a.longitude + (b.longitude - a.longitude) * t
  latitude := a.latitude + (b.latitude - a.latitude) * t
  zoom := a.zoom + (b.zoom - a.zoom) * t
  bearing := a.bearing + (b.bearing - a.bearing) * t
  pitch := a.pitch + (b.pitch - a.pitch) * t
  width := a.width + (b.width - a.width) * t
  height := a.height + (b.height - a.height) * t

/-- The transition-spec keys that `updateViewport` merges into the emitted
viewport object (`extraProps`).  Absent keys are `none`. -/
structure TransitionProps where
  transitionDuration : ℝ
  transitionEasing : Option (ℝ → ℝ) := none
  transitionInterpolator : Option (ViewportProps → ViewportProps → ℝ → ViewportProps) := none
  transitionInterruption : Option TransitionInterruption := none

/-- `NO_TRANSITION_PROPS = {transitionDuration: 0}`. -/
def NO_TRANSITION_PROPS : TransitionProps where
  transitionDuration := 0

/-- `LINEAR_TRANSITION_PROPS`: duration 300 ms, identity easing, linear
interpolator, BREAK interruption. -/
noncomputable def LINEAR_TRANSITION_PROPS : TransitionProps where
  transitionDuration := 300
  transitionEasing := some fun t => t
  transitionInterpolator := some linearInterpolate
  transitionInterruption := some TransitionInterruption.BREAK

/-- `PITCH_MOUSE_THRESHOLD = 5`. -/
def PITCH_MOUSE_THRESHOLD : ℝ := 5

/-- `PITCH_ACCEL = 1.2`. -/
noncomputable def PITCH_ACCEL : ℝ := 1.2

/-- `ZOOM_ACCEL = 0.01`. -/
noncomputable def ZOOM_ACCEL : ℝ := 0.01

/-- `EVENT_TYPES.WHEEL`. -/
def WHEEL_EVENTS : List String := ["wheel"]

/-- `EVENT_TYPES.PAN`. -/
def PAN_EVENTS : List String := ["panstart", "panmove", "panend"]

/-- `EVENT_TYPES.PINCH`. -/
def PINCH_EVENTS : List String := ["pinchstart", "pinchmove", "pinchend"]

/-- `EVENT_TYPES.DOUBLE_TAP`. -/
def DOUBLE_TAP_EVENTS : List String := ["doubletap"]

/-- `EVENT_TYPES.KEYBOARD`. -/
def KEYBOARD_EVENTS : List String := ["keydown"]

/-- All nine gesture event names the controller recognises. -/
def ALL_GESTURE_EVENTS : List String :=
  WHEEL_EVENTS ++ PAN_EVENTS ++ PINCH_EVENTS ++ DOUBLE_TAP_EVENTS ++ KEYBOARD_EVENTS

/-- The `srcEvent` carried by a gesture event: modifier-key flags and the
key code. -/
structure SrcEvent where
  metaKey : Bool
  altKey : Bool
  ctrlKey : Bool
  shiftKey : Bool
  keyCode : Nat

/-- A gesture event as delivered by the event manager (hammer.js event
object): type, offset center, deltas, pinch scale and angle, secondary
button flag, source event. -/
structure Event where
  type : String
  offsetCenterX : ℝ
  offsetCenterY : ℝ
  deltaX : ℝ
  deltaY : ℝ
  delta : ℝ
  scale : ℝ
  rotation : ℝ
  rightButton : Bool
  srcEvent : SrcEvent

/-- `getCenter(event)`: reads `event.offsetCenter`. -/
def getCenter (e : Event) : ℝ × ℝ := (e.offsetCenterX, e.offsetCenterY)

/-- `isFunctionKeyPressed(event)`: true when any of meta/alt/ctrl/shift is
held on the source event. -/
def isFunctionKeyPressed (e : Event) : Bool :=
  e.srcEvent.metaKey || e.srcEvent.altKey || e.srcEvent.ctrlKey || e.srcEvent.shiftKey

/-- The scale computed by `_onWheel` from the wheel delta:
`scale = 2 / (1 + exp(-|delta * ZOOM_ACCEL|))`, replaced by `1 / scale`
when `delta < 0` and `scale` is nonzero. -/
noncomputable def wheelScale (delta : ℝ) : ℝ :=
  let scale := 2 / (1 + Real.exp (-|delta * ZOOM_ACCEL|))
  if delta < 0 ∧ scale ≠ 0 then 1 / scale else scale

/-- Modelled from the spec: the map-like viewport state.  It is constructed
fresh for each incoming event from the current viewport props and the
controller's interaction state; operations are pure and return a new state.
Start anchors set by the `*Start` operations are kept in the state value. -/
structure MapState where
  props : ViewportProps
  interaction : InteractionState
  startPanPos : Option (ℝ × ℝ) := none
  startRotatePos : Option (ℝ × ℝ) := none
  startZoomPos : Option (ℝ × ℝ) := none

namespace MapState

/-- `new ViewportState(Object.assign({}, viewStateProps, this._state))`:
construct a fresh state from the props and the controller state.  The
controller-level `startPinchRotation` field is not consumed by the state. -/
def fromProps (p : ViewportProps) (s : CtrlState) : MapState where
  props := p
  interaction := s.interaction

/-- `getViewportProps()`. -/
def getViewportProps (m : MapState) : ViewportProps := m.props

/-- `getInteractiveState()`. -/
def getInteractiveState (m : MapState) : InteractionState := m.interaction

/-- Modelled from the spec: `panStart({pos})` records the pan anchor and
marks the state as panning. -/
def panStart (m : MapState) (pos : ℝ × ℝ) : MapState :=
  { m with
    startPanPos := some pos
    interaction := { m.interaction with isPanning := true } }

/-- Modelled from the spec: `pan({pos})` translates the position by an amount
proportional to the pixel delta from the start anchor (proportionality
constant 1 props-unit per pixel, a design choice the spec leaves open); a
`pan` with no recorded anchor leaves the props unchanged. -/
noncomputable def pan (m : MapState) (pos : ℝ × ℝ) : MapState :=
  match m.startPanPos with
  | none => m
  | some a =>
    { m with
      props :=
        { m.props with
          longitude := m.props.longitude + (pos.1 - a.1)
          latitude := m.props.latitude + (pos.2 - a.2) } }

/-- Modelled from the spec: `panEnd()` clears the pan anchor. -/
def panEnd (m : MapState) : MapState :=
  { m with
    startPanPos := none
    interaction := { m.interaction with isPanning := false } }

/-- Modelled from the spec: `rotateStart({pos})` records the rotate anchor. -/
def rotateStart (m : MapState) (pos : ℝ × ℝ) : MapState :=
  { m with
    startRotatePos := some pos
    interaction := { m.interaction with isRotating := true } }

/-- Modelled from the spec: `rotate({deltaScaleX, deltaScaleY})` maps the
dimensionless fractions to bearing and pitch changes, the pitch clamped into
`[0, 60]` (full-range steps of 180 degrees of bearing and 60 degrees of
pitch per unit fraction, a design choice the spec leaves open). -/
noncomputable def rotate (m : MapState) (deltaScaleX deltaScaleY : ℝ) : MapState :=
  { m with
    props :=
      { m.props with
        bearing := m.props.bearing + 180 * deltaScaleX
        pitch := min 60 (max 0 (m.props.pitch + 60 * deltaScaleY)) } }

/-- Modelled from the spec: `rotateEnd()` clears the rotate anchor. -/
def rotateEnd (m : MapState) : MapState :=
  { m with
    startRotatePos := none
    interaction := { m.interaction with isRotating := false } }

/-- Modelled from the spec: `zoomStart({pos})` records the zoom anchor. -/
def zoomStart (m : MapState) (pos : ℝ × ℝ) : MapState :=
  { m with
    startZoomPos := some pos
    interaction := { m.interaction with isZooming := true } }

/-- Modelled from the spec: `zoom({pos, scale})` multiplies the current zoom
level by `scale`, the result clamped to `>= 0`.  The cursor-anchored
adjustment of longitude/latitude requires the projection math that is out of
the modelled scope and is not represented; no claim in this development
depends on it. -/
noncomputable def zoom (m : MapState) (pos : ℝ × ℝ) (scale : ℝ) : MapState :=
  { m with
    startZoomPos := m.startZoomPos
    props := { m.props with zoom := max 0 (m.props.zoom * scale) } }

/-- Modelled from the spec: `zoomEnd()` clears the zoom anchor. -/
def zoomEnd (m : MapState) : MapState :=
  { m with
    startZoomPos := none
    interaction := { m.interaction with isZooming := false } }

/-- Modelled from the spec: discrete keyboard zoom-in step of one level. -/
noncomputable def zoomIn (m : MapState) : MapState :=
  { m with props := { m.props with zoom := max 0 (m.props.zoom + 1) } }

/-- Modelled from the spec: discrete keyboard zoom-out step of one level,
clamped to `>= 0`. -/
noncomputable def zoomOut (m : MapState) : MapState :=
  { m with props := { m.props with zoom := max 0 (m.props.zoom - 1) } }

/-- Modelled from the spec: discrete keyboard pan step (one tenth of the
viewport size, a design choice the spec leaves open). -/
noncomputable def moveLeft (m : MapState) : MapState :=
  { m with props := { m.props with longitude := m.props.longitude - m.props.width / 10 } }

/-- Modelled from the spec: discrete keyboard pan step to the right. -/
noncomputable def moveRight (m : MapState) : MapState :=
  { m with props := { m.props with longitude := m.props.longitude + m.props.width / 10 } }

/-- Modelled from the spec: discrete keyboard pan step upward. -/
noncomputable def moveUp (m : MapState) : MapState :=
  { m with props := { m.props with latitude := m.props.latitude + m.props.height / 10 } }

/-- Modelled from the spec: discrete keyboard pan step downward. -/
noncomputable def moveDown (m : MapState) : MapState :=
  { m with props := { m.props with latitude := m.props.latitude - m.props.height / 10 } }

/-- Modelled from the spec: discrete keyboard rotate step (15 degrees). -/
noncomputable def rotateLeft (m : MapState) : MapState :=
  { m with props := { m.props with bearing := m.props.bearing - 15 } }

/-- Modelled from the spec: discrete keyboard rotate step to the right. -/
noncomputable def rotateRight (m : MapState) : MapState :=
  { m with props := { m.props with bearing := m.props.bearing + 15 } }

/-- Modelled from the spec: discrete keyboard pitch step (10 degrees, pitch
clamped into `[0, 60]`). -/
noncomputable def rotateUp (m : MapState) : MapState :=
  { m with props := { m.props with pitch := min 60 (max 0 (m.props.pitch + 10)) } }

/-- Modelled from the spec: discrete keyboard pitch step downward. -/
noncomputable def rotateDown (m : MapState) : MapState :=
  { m with props := { m.props with pitch := min 60 (max 0 (m.props.pitch - 10)) } }

end MapState

/-- A recorded callback invocation: either `onViewportChange` with the merged
viewport-plus-transition object, or `onStateChange` with the new `_state`. -/
inductive Call
  | viewportChange (props : ViewportProps) (extras : Option TransitionProps)
  | stateChange (s : CtrlState)

/-- True exactly on `onViewportChange` invocations. -/
def isViewportCall : Call → Bool
  | .viewportChange _ _ => true
  | .stateChange _ => false

/-- Projects the `onViewportChange` invocations out of a trace. -/
def viewportCalls (l : List Call) : List (ViewportProps × Option TransitionProps) :=
  l.filterMap fun
    | .viewportChange p e => some (p, e)
    | .stateChange _ => none

/-- Projects the `isDragging` flag of each `onStateChange` invocation out of
a trace. -/
def stateDragging (l : List Call) : List Bool :=
  l.filterMap fun
    | .viewportChange _ _ => none
    | .stateChange s => some s.interaction.isDragging

/-- The controller's mutable fields: registered callbacks (modelled by their
presence), the event manager (modelled by an identity token, `none` = null),
the `_events` registration map, `_state`, the viewport props last passed to
`setOptions`, and the interaction toggles. -/
structure Controls where
  onViewportChange : Bool
  onStateChange : Bool
  eventManager : Option Nat
  events : String → Option Bool
  state : CtrlState
  viewStateProps : ViewportProps
  scrollZoom : Bool
  dragPan : Bool
  dragRotate : Bool
  doubleClickZoom : Bool
  touchZoom : Bool
  touchRotate : Bool
  keyboard : Bool

/-- An options object passed to `setOptions`: `none` models an absent (or
`undefined`) property, for which the destructuring defaults apply.  The
viewport-props part of the options object is `props` (the source stores the
whole options object as `viewStateProps`; only its props fields are consumed
by the state constructor). -/
structure Options where
  onViewportChange : Option Bool := none
  onStateChange : Option Bool := none
  eventManager : Option (Option Nat) := none
  scrollZoom : Option Bool := none
  dragPan : Option Bool := none
  dragRotate : Option Bool := none
  doubleClickZoom : Option Bool := none
  touchZoom : Option Bool := none
  touchRotate : Option Bool := none
  keyboard : Option Bool := none
  props : ViewportProps

/-- One step of `toggleEvents`' forEach body: update the registration for one
event name when it differs from the desired enabled flag. -/
def toggleStep (ev : String → Option Bool) (n : String) (enabled : Bool) :
    String → Option Bool :=
  if ev n ≠ some enabled then Function.update ev n (some enabled) else ev

/-- `toggleEvents(eventNames, enabled)`: when an event manager is present,
walk the names and update each registration that differs. -/
def toggleEvents (em : Option Nat) (ev : String → Option Bool) (names : List String)
    (enabled : Bool) : String → Option Bool :=
  if em.isSome then names.foldl (fun acc n => toggleStep acc n enabled) ev else ev

/-- `setOptions(options)`: destructure with defaults (`onViewportChange` has
no default; `onStateChange` and `eventManager` default to their previous
values; toggles default to `true` except `touchRotate`), reset the
registration map when the event manager changed, then re-register the five
event groups gated on interactivity, and store the toggles. -/
def setOptions (c : Controls) (opts : Options) : Controls :=
  let onViewportChange := opts.onViewportChange.getD false
  let onStateChange := opts.onStateChange.getD c.onStateChange
  let eventManager := opts.eventManager.getD c.eventManager
  let scrollZoom := opts.scrollZoom.getD true
  let dragPan := opts.dragPan.getD true
  let dragRotate := opts.dragRotate.getD true
  let doubleClickZoom := opts.doubleClickZoom.getD true
  let touchZoom := opts.touchZoom.getD true
  let touchRotate := opts.touchRotate.getD false
  let keyboard := opts.keyboard.getD true
  let events0 := if c.eventManager ≠ eventManager then (fun _ => none) else c.events
  let isInteractive := onViewportChange
  let events1 := toggleEvents eventManager events0 WHEEL_EVENTS (isInteractive && scrollZoom)
  let events2 := toggleEvents eventManager events1 PAN_EVENTS
    (isInteractive && (dragPan || dragRotate))
  let events3 := toggleEvents eventManager events2 PINCH_EVENTS
    (isInteractive && (touchZoom || touchRotate))
  let events4 := toggleEvents eventManager events3 DOUBLE_TAP_EVENTS
    (isInteractive && doubleClickZoom)
  let events5 := toggleEvents eventManager events4 KEYBOARD_EVENTS
    (isInteractive && keyboard)
  { onViewportChange := onViewportChange
    onStateChange := onStateChange
    eventManager := eventManager
    events := events5
    state := c.state
    viewStateProps := opts.props
    scrollZoom := scrollZoom
    dragPan := dragPan
    dragRotate := dragRotate
    doubleClickZoom := doubleClickZoom
    touchZoom := touchZoom
    touchRotate := touchRotate
    keyboard := keyboard }

/-- An event name is subscribed on the current event source exactly when a
manager is present and the registration map marks the name enabled. -/
def subscribedB (c : Controls) (n : String) : Bool :=
  c.eventManager.isSome && (c.events n == some true)

/-- The field-wise comparison `Object.keys(newViewport).some(key =>
oldViewport[key] !== newViewport[key])` restricted to the props keys (the
transition keys merged from `extraProps` are handled by the caller: they are
always absent from the old props object). -/
noncomputable def propsDiffer (old new : ViewportProps) : Bool :=
  decide (old.longitude ≠ new.longitude) || decide (old.latitude ≠ new.latitude) ||
    decide (old.zoom ≠ new.zoom) || decide (old.bearing ≠ new.bearing) ||
    decide (old.pitch ≠ new.pitch) || decide (old.width ≠ new.width) ||
    decide (old.height ≠ new.height)

/-- The result of an event handler: the updated controller, the JavaScript
return value (`none` models `undefined`, the implicit return of
`updateViewport`), and the recorded callback invocations in order. -/
structure HandleResult where
  controls : Controls
  ret : Option Bool
  calls : List Call

/-- `updateViewport(newViewportState, extraProps, extraState)`: compare the
merged new viewport object against the old props; invoke `onViewportChange`
when registered and some key differs (a non-null `extraProps` contributes
transition keys that are absent from the old props, hence always differ);
then `setState` with the state's interactive state overridden by the
`extraState` isDragging flag, invoking `onStateChange` when registered. -/
noncomputable def updateViewport (c : Controls) (vs newVS : MapState)
    (extraProps : Option TransitionProps) (extraDragging : Option Bool) : HandleResult :=
  let oldViewport := vs.getViewportProps
  let newViewport := newVS.getViewportProps
  let vcCalls :=
    if c.onViewportChange && (propsDiffer oldViewport newViewport || extraProps.isSome) then
      [Call.viewportChange newViewport extraProps]
    else []
  let reported := newVS.getInteractiveState
  let newInteraction :=
    { reported with isDragging := extraDragging.getD reported.isDragging }
  let newState : CtrlState :=
    { interaction := newInteraction, startPinchRotation := c.state.startPinchRotation }
  let scCalls := if c.onStateChange then [Call.stateChange newState] else []
  { controls := { c with state := newState }
    ret := none
    calls := vcCalls ++ scCalls }

/-- `_onPanStart(event)`. -/
noncomputable def onPanStart (c : Controls) (vs : MapState) (e : Event) : HandleResult :=
  let pos := getCenter e
  let newVS := (vs.panStart pos).rotateStart pos
  updateViewport c vs newVS (some NO_TRANSITION_PROPS) (some true)

/-- `_onPanEnd(event)`: note the null `extraProps`. -/
noncomputable def onPanEnd (c : Controls) (vs : MapState) (_e : Event) : HandleResult :=
  let newVS := vs.panEnd.rotateEnd
  updateViewport c vs newVS none (some false)

/-- `_onPanMove(event)`: no-op returning `false` when `dragPan` is off. -/
noncomputable def onPanMove (c : Controls) (vs : MapState) (e : Event) : HandleResult :=
  if !c.dragPan then { controls := c, ret := some false, calls := [] }
  else
    let pos := getCenter e
    let newVS := vs.pan pos
    updateViewport c vs newVS (some NO_TRANSITION_PROPS) (some true)

/-- The un-clamped `deltaScaleY` computed by `_onPanRotateMap`: the
pitch-oriented branch for a downward drag away from the bottom edge, the
`1 - centerY / startY` branch for an upward drag below the threshold line,
and `0` otherwise. -/
noncomputable def panRotateMapRawDeltaScaleY (height startY centerY deltaY : ℝ) : ℝ :=
  if deltaY > 0 then
    if |height - startY| > PITCH_MOUSE_THRESHOLD then
      deltaY / (startY - height) * PITCH_ACCEL
    else 0
  else if deltaY < 0 then
    if startY > PITCH_MOUSE_THRESHOLD then 1 - centerY / startY else 0
  else 0

/-- The `deltaScaleY` passed to `rotate` by `_onPanRotateMap`:
`Math.min(1, Math.max(-1, deltaScaleY))`. -/
noncomputable def panRotateMapDeltaScaleY (height startY centerY deltaY : ℝ) : ℝ :=
  min 1 (max (-1) (panRotateMapRawDeltaScaleY height startY centerY deltaY))

/-- `_onPanRotateMap(event)`: the map-like pan-to-rotate geometry, with
`startY = centerY - deltaY` reconstructed from the event. -/
noncomputable def onPanRotateMap (c : Controls) (vs : MapState) (e : Event) : HandleResult :=
  let centerY := (getCenter e).2
  let startY := centerY - e.deltaY
  let width := vs.getViewportProps.width
  let height := vs.getViewportProps.height
  let deltaScaleX := e.deltaX / width
  let deltaScaleY := panRotateMapDeltaScaleY height startY centerY e.deltaY
  let newVS := vs.rotate deltaScaleX deltaScaleY
  updateViewport c vs newVS (some NO_TRANSITION_PROPS) (some true)

/-- `_onPanRotate(event)`: no-op returning `false` when `dragRotate` is off;
the embedded viewport state is the `MapState` variant, so the source's
`instanceof MapState` test selects the map-like geometry. -/
noncomputable def onPanRotate (c : Controls) (vs : MapState) (e : Event) : HandleResult :=
  if !c.dragRotate then { controls := c, ret := some false, calls := [] }
  else onPanRotateMap c vs e

/-- `_onPan(event)`: route to rotate when a function key or the secondary
button is held, otherwise to move. -/
noncomputable def onPan (c : Controls) (vs : MapState) (e : Event) : HandleResult :=
  if isFunctionKeyPressed e || e.rightButton then onPanRotate c vs e else onPanMove c vs e

/-- `_onWheel(event)`: no-op returning `false` when `scrollZoom` is off;
otherwise zoom by the saturating wheel scale with an instant transition. -/
noncomputable def onWheel (c : Controls) (vs : MapState) (e : Event) : HandleResult :=
  if !c.scrollZoom then { controls := c, ret := some false, calls := [] }
  else
    let pos := getCenter e
    let scale := wheelScale e.delta
    let newVS := vs.zoom pos scale
    updateViewport c vs newVS (some NO_TRANSITION_PROPS) none

/-- `_onPinchStart(event)`: record the start pinch angle directly in `_state`
before updating the viewport. -/
noncomputable def onPinchStart (c : Controls) (vs : MapState) (e : Event) : HandleResult :=
  let pos := getCenter e
  let newVS := (vs.zoomStart pos).rotateStart pos
  let c1 := { c with state := { c.state with startPinchRotation := e.rotation } }
  updateViewport c1 vs newVS (some NO_TRANSITION_PROPS) (some true)

/-- `_onPinch(event)`: no-op returning `false` when both touch toggles are
off; otherwise zoom by the reported pinch scale and/or rotate by the
compensated pinch angle. -/
noncomputable def onPinch (c : Controls) (vs : MapState) (e : Event) : HandleResult :=
  if !c.touchZoom && !c.touchRotate then { controls := c, ret := some false, calls := [] }
  else
    let v1 := if c.touchZoom then vs.zoom (getCenter e) e.scale else vs
    let v2 :=
      if c.touchRotate then
        v1.rotate (-(e.rotation - c.state.startPinchRotation) / 180) 0
      else v1
    updateViewport c vs v2 (some NO_TRANSITION_PROPS) (some true)

/-- `_onPinchEnd(event)`: reset `startPinchRotation`, then update with null
`extraProps`. -/
noncomputable def onPinchEnd (c : Controls) (vs : MapState) (_e : Event) : HandleResult :=
  let newVS := vs.zoomEnd.rotateEnd
  let c1 := { c with state := { c.state with startPinchRotation := 0 } }
  updateViewport c1 vs newVS none (some false)

/-- `_onDoubleTap(event)`: no-op returning `false` when `doubleClickZoom` is
off; otherwise zoom by 2, or by 0.5 when a function key is held, animated
with the linear transition spec. -/
noncomputable def onDoubleTap (c : Controls) (vs : MapState) (e : Event) : HandleResult :=
  if !c.doubleClickZoom then { controls := c, ret := some false, calls := [] }
  else
    let pos := getCenter e
    let isZoomOut := isFunctionKeyPressed e
    let newVS := vs.zoom pos (if isZoomOut then 0.5 else 2)
    updateViewport c vs newVS (some LINEAR_TRANSITION_PROPS) none

/-- `_onKeyDown(event)`: no-op returning `false` when `keyboard` is off;
otherwise a discrete step selected by the key code (doubled with a function
key for zoom, switched to rotation for arrows), animated with the linear
transition spec; unrecognised key codes return `false`. -/
noncomputable def onKeyDown (c : Controls) (vs : MapState) (e : Event) : HandleResult :=
  if !c.keyboard then { controls := c, ret := some false, calls := [] }
  else
    let funcKey := isFunctionKeyPressed e
    if e.srcEvent.keyCode = 189 then
      updateViewport c vs (if funcKey then vs.zoomOut.zoomOut else vs.zoomOut)
        (some LINEAR_TRANSITION_PROPS) none
    else if e.srcEvent.keyCode = 187 then
      updateViewport c vs (if funcKey then vs.zoomIn.zoomIn else vs.zoomIn)
        (some LINEAR_TRANSITION_PROPS) none
    else if e.srcEvent.keyCode = 37 then
      updateViewport c vs (if funcKey then vs.rotateLeft else vs.moveLeft)
        (some LINEAR_TRANSITION_PROPS) none
    else if e.srcEvent.keyCode = 39 then
      updateViewport c vs (if funcKey then vs.rotateRight else vs.moveRight)
        (some LINEAR_TRANSITION_PROPS) none
    else if e.srcEvent.keyCode = 38 then
      updateViewport c vs (if funcKey then vs.rotateUp else vs.moveUp)
        (some LINEAR_TRANSITION_PROPS) none
    else if e.srcEvent.keyCode = 40 then
      updateViewport c vs (if funcKey then vs.rotateDown else vs.moveDown)
        (some LINEAR_TRANSITION_PROPS) none
    else { controls := c, ret := some false, calls := [] }

/-- `handleEvent(event)`: construct a fresh viewport state from the stored
props and `_state`, then dispatch on the event type; unrecognised types
return `false` with no effect. -/
noncomputable def handleEvent (c : Controls) (e : Event) : HandleResult :=
  let vs := MapState.fromProps c.viewStateProps c.state
  if e.type = "panstart" then onPanStart c vs e
  else if e.type = "panmove" then onPan c vs e
  else if e.type = "panend" then onPanEnd c vs e
  else if e.type = "pinchstart" then onPinchStart c vs e
  else if e.type = "pinchmove" then onPinch c vs e
  else if e.type = "pinchend" then onPinchEnd c vs e
  else if e.type = "doubletap" then onDoubleTap c vs e
  else if e.type = "wheel" then onWheel c vs e
  else if e.type = "keydown" then onKeyDown c vs e
  else { controls := c, ret := some false, calls := [] }

/-- Feed a list of events through the controller, concatenating the recorded
callback invocations. -/
noncomputable def processEvents (c : Controls) : List Event → Controls × List Call
  | [] => (c, [])
  | e :: rest =>
    let r := handleEvent c e
    let rr := processEvents r.controls rest
    (rr.1, r.calls ++ rr.2)

lemma zoom_accel_pos : (0 : ℝ) < ZOOM_ACCEL := by
  unfold ZOOM_ACCEL
  norm_num

lemma wheelScale_eq (d : ℝ) :
    wheelScale d =
      if d < 0 then (2 / (1 + Real.exp (-(|d| * ZOOM_ACCEL))))⁻¹
      else 2 / (1 + Real.exp (-(|d| * ZOOM_ACCEL))) := by
  have hpos : 0 < 2 / (1 + Real.exp (-(|d| * ZOOM_ACCEL))) := by positivity
  simp only [wheelScale, abs_mul, abs_of_pos zoom_accel_pos]
  by_cases hd : d < 0
  · rw [if_pos ⟨hd, ne_of_gt hpos⟩, if_pos hd, one_div]
  · rw [if_neg fun h => hd h.1, if_neg hd]

lemma wheelScale_bounds (d : ℝ) : 1 / 2 < wheelScale d ∧ wheelScale d < 2 := by
  have hE0 : 0 < Real.exp (-(|d| * ZOOM_ACCEL)) := Real.exp_pos _
  have hE1 : Real.exp (-(|d| * ZOOM_ACCEL)) ≤ 1 :=
    Real.exp_le_one_iff.mpr
      (neg_nonpos.mpr (mul_nonneg (abs_nonneg d) (le_of_lt zoom_accel_pos)))
  set E := Real.exp (-(|d| * ZOOM_ACCEL)) with hE
  have h1 : 1 ≤ 2 / (1 + E) := by
    rw [le_div_iff₀ (by linarith)]
    linarith
  have h2 : 2 / (1 + E) < 2 := by
    rw [div_lt_iff₀ (by linarith)]
    linarith
  rw [wheelScale_eq, ← hE]
  by_cases hd : d < 0
  · rw [if_pos hd, inv_div]
    constructor
    · linarith
    · linarith
  · rw [if_neg hd]
    constructor
    · linarith
    · exact h2

/-- C2: for every wheel delta, the scale handed to the viewport state equals
`2 / (1 + e^(-|delta| * ZOOM_ACCEL))` for nonnegative deltas and its
reciprocal for negative deltas, and it always lies strictly between 1/2
and 2. -/
theorem c2_wheel_scale_saturating (d : ℝ) :
    wheelScale d =
      (if d < 0 then (2 / (1 + Real.exp (-(|d| * ZOOM_ACCEL))))⁻¹
       else 2 / (1 + Real.exp (-(|d| * ZOOM_ACCEL)))) ∧
    1 / 2 < wheelScale d ∧ wheelScale d < 2 :=
  ⟨wheelScale_eq d, wheelScale_bounds d⟩

/-- The viewport props of the C1 wheel scenario: zoom 10, bearing 0,
pitch 0. -/
def c1Props : ViewportProps :=
  ⟨0, 0, 10, 0, 0, 800, 600⟩

/-- An all-false interaction state. -/
def idleInteraction : InteractionState :=
  ⟨false, false, false, false, false⟩

/-- A fully interactive controller holding the C1 props. -/
def c1Controls : Controls where
  onViewportChange := true
  onStateChange := true
  eventManager := some 0
  events := fun _ => none
  state := ⟨idleInteraction, 0⟩
  viewStateProps := c1Props
  scrollZoom := true
  dragPan := true
  dragRotate := true
  doubleClickZoom := true
  touchZoom := true
  touchRotate := false
  keyboard := true

/-- A plain source event with no modifier keys. -/
def plainSrcEvent : SrcEvent :=
  ⟨false, false, false, false, 0⟩

/-- The C1 wheel event with `delta = -100`. -/
def c1Event : Event where
  type := "wheel"
  offsetCenterX := 400
  offsetCenterY := 300
  deltaX := 0
  deltaY := 0
  delta := -100
  scale := 1
  rotation := 0
  rightButton := false
  srcEvent := plainSrcEvent

lemma handleEvent_wheel (c : Controls) (e : Event) (h : e.type = "wheel") :
    handleEvent c e = onWheel c (MapState.fromProps c.viewStateProps c.state) e := by
  unfold handleEvent
  rw [h, if_neg (by decide), if_neg (by decide), if_neg (by decide), if_neg (by decide),
    if_neg (by decide), if_neg (by decide), if_neg (by decide), if_pos rfl]

lemma wheelScale_neg100 : wheelScale (-100) = (1 + Real.exp (-1)) / 2 := by
  rw [wheelScale_eq, if_pos (by norm_num : (-100 : ℝ) < 0), inv_div]
  norm_num [ZOOM_ACCEL]

/-- The viewport props emitted by the C1 scenario: the zoom dropped to
`5 * (1 + e⁻¹) ≈ 6.84`. -/
noncomputable def c1NewProps : ViewportProps :=
  { c1Props with zoom := 5 * (1 + Real.exp (-1)) }

lemma c1_calls :
    (handleEvent c1Controls c1Event).calls =
      [Call.viewportChange c1NewProps (some NO_TRANSITION_PROPS),
       Call.stateChange c1Controls.state] := by
  rw [handleEvent_wheel c1Controls c1Event rfl]
  simp only [onWheel, updateViewport, MapState.fromProps, MapState.zoom,
    MapState.getViewportProps, MapState.getInteractiveState, getCenter]
  simp [c1Controls, c1NewProps, c1Props, idleInteraction]
  rw [show c1Event.delta = -100 from rfl, wheelScale_neg100,
    show (10 : ℝ) * ((1 + Real.exp (-1)) / 2) = 5 * (1 + Real.exp (-1)) from by ring]
  exact max_eq_right (by positivity)

lemma c1_new_zoom_lt : c1NewProps.zoom < c1Props.zoom := by
  have h1 : Real.exp (-1) < 1 := Real.exp_lt_one_iff.mpr (by norm_num)
  simp only [c1NewProps, c1Props]
  linarith

/-- C1 (counterexample): in the scenario of the claim — zoom 10, scroll zoom
enabled, wheel event with `delta = -100` — `onViewportChange` is invoked
exactly once with an instant transition spec, but the emitted zoom
`5 * (1 + e⁻¹)` is NOT an increase over 10: the inverted saturating scale is
smaller than 1, so the zoom decreases. -/
theorem c1_counterexample :
    viewportCalls (handleEvent c1Controls c1Event).calls =
      [(c1NewProps, some NO_TRANSITION_PROPS)] ∧
    ¬ c1Props.zoom < c1NewProps.zoom := by
  constructor
  · rw [c1_calls]
    rfl
  · exact not_lt_of_gt c1_new_zoom_lt

/-- C1 (amended): in the scenario of the claim the zoom DEcreases — the
saturating scale is inverted to a value below 1 because `delta < 0` — and
`onViewportChange` is invoked exactly once, with the decreased zoom and the
instant transition spec of duration 0. -/
theorem c1_amended_wheel_zoom_decreases :
    viewportCalls (handleEvent c1Controls c1Event).calls =
      [(c1NewProps, some NO_TRANSITION_PROPS)] ∧
    c1NewProps.zoom < c1Props.zoom ∧
    NO_TRANSITION_PROPS.transitionDuration = 0 := by
  refine ⟨?_, c1_new_zoom_lt, rfl⟩
  rw [c1_calls]
  rfl

lemma handleEvent_panstart (c : Controls) (e : Event) (h : e.type = "panstart") :
    handleEvent c e = onPanStart c (MapState.fromProps c.viewStateProps c.state) e := by
  unfold handleEvent
  rw [h, if_pos rfl]

lemma handleEvent_panmove (c : Controls) (e : Event) (h : e.type = "panmove") :
    handleEvent c e = onPan c (MapState.fromProps c.viewStateProps c.state) e := by
  unfold handleEvent
  rw [h, if_neg (by decide), if_pos rfl]

lemma handleEvent_panend (c : Controls) (e : Event) (h : e.type = "panend") :
    handleEvent c e = onPanEnd c (MapState.fromProps c.viewStateProps c.state) e := by
  unfold handleEvent
  rw [h, if_neg (by decide), if_neg (by decide), if_pos rfl]

lemma handleEvent_pinchstart (c : Controls) (e : Event) (h : e.type = "pinchstart") :
    handleEvent c e = onPinchStart c (MapState.fromProps c.viewStateProps c.state) e := by
  unfold handleEvent
  rw [h, if_neg (by decide), if_neg (by decide), if_neg (by decide), if_pos rfl]

lemma handleEvent_pinchmove (c : Controls) (e : Event) (h : e.type = "pinchmove") :
    handleEvent c e = onPinch c (MapState.fromProps c.viewStateProps c.state) e := by
  unfold handleEvent
  rw [h, if_neg (by decide), if_neg (by decide), if_neg (by decide), if_neg (by decide),
    if_pos rfl]

lemma handleEvent_pinchend (c : Controls) (e : Event) (h : e.type = "pinchend") :
    handleEvent c e = onPinchEnd c (MapState.fromProps c.viewStateProps c.state) e := by
  unfold handleEvent
  rw [h, if_neg (by decide), if_neg (by decide), if_neg (by decide), if_neg (by decide),
    if_neg (by decide), if_pos rfl]

lemma handleEvent_doubletap (c : Controls) (e : Event) (h : e.type = "doubletap") :
    handleEvent c e = onDoubleTap c (MapState.fromProps c.viewStateProps c.state) e := by
  unfold handleEvent
  rw [h, if_neg (by decide), if_neg (by decide), if_neg (by decide), if_neg (by decide),
    if_neg (by decide), if_neg (by decide), if_pos rfl]

lemma handleEvent_keydown (c : Controls) (e : Event) (h : e.type = "keydown") :
    handleEvent c e = onKeyDown c (MapState.fromProps c.viewStateProps c.state) e := by
  unfold handleEvent
  rw [h, if_neg (by decide), if_neg (by decide), if_neg (by decide), if_neg (by decide),
    if_neg (by decide), if_neg (by decide), if_neg (by decide), if_neg (by decide),
    if_pos rfl]

lemma handleEvent_unknown (c : Controls) (e : Event) (h : e.type ∉ ALL_GESTURE_EVENTS) :
    handleEvent c e = ⟨c, some false, []⟩ := by
  have h1 : e.type ≠ "panstart" := by
    intro he
    rw [he] at h
    exact h (by decide)
  have h2 : e.type ≠ "panmove" := by
    intro he
    rw [he] at h
    exact h (by decide)
  have h3 : e.type ≠ "panend" := by
    intro he
    rw [he] at h
    exact h (by decide)
  have h4 : e.type ≠ "pinchstart" := by
    intro he
    rw [he] at h
    exact h (by decide)
  have h5 : e.type ≠ "pinchmove" := by
    intro he
    rw [he] at h
    exact h (by decide)
  have h6 : e.type ≠ "pinchend" := by
    intro he
    rw [he] at h
    exact h (by decide)
  have h7 : e.type ≠ "doubletap" := by
    intro he
    rw [he] at h
    exact h (by decide)
  have h8 : e.type ≠ "wheel" := by
    intro he
    rw [he] at h
    exact h (by decide)
  have h9 : e.type ≠ "keydown" := by
    intro he
    rw [he] at h
    exact h (by decide)
  unfold handleEvent
  rw [if_neg h1, if_neg h2, if_neg h3, if_neg h4, if_neg h5, if_neg h6, if_neg h7,
    if_neg h8, if_neg h9]

lemma wheelScale_zero : wheelScale 0 = 1 := by
  rw [wheelScale_eq, if_neg (by norm_num : ¬(0 : ℝ) < 0)]
  norm_num

/-- The C3 wheel event with `delta = 0`: the saturating scale is exactly 1,
so the zoom — and every other props field — is unchanged. -/
def c3Event : Event where
  type := "wheel"
  offsetCenterX := 400
  offsetCenterY := 300
  deltaX := 0
  deltaY := 0
  delta := 0
  scale := 1
  rotation := 0
  rightButton := false
  srcEvent := plainSrcEvent

/-- C3 (counterexample): a wheel event with `delta = 0` leaves every field of
the viewport props unchanged (the emitted props are exactly the previous
props `c1Props`), yet `onViewportChange` is invoked once: the comparison in
`updateViewport` runs over the merged object, whose transition keys are
absent from the old props and therefore always differ. -/
theorem c3_counterexample :
    viewportCalls (handleEvent c1Controls c3Event).calls =
      [(c1Props, some NO_TRANSITION_PROPS)] ∧
    c1Controls.viewStateProps = c1Props := by
  refine ⟨?_, rfl⟩
  rw [handleEvent_wheel c1Controls c3Event rfl]
  simp only [onWheel, updateViewport, MapState.fromProps, MapState.zoom,
    MapState.getViewportProps, MapState.getInteractiveState, getCenter]
  simp [c1Controls, c1Props, idleInteraction]
  rw [show c3Event.delta = 0 from rfl, wheelScale_zero]
  rw [show (10 : ℝ) * 1 = 10 from by norm_num]
  rw [show (0 : ℝ) ⊔ 10 = 10 from max_eq_right (by norm_num)]
  rfl

/-- C3 (amended): `onViewportChange` is invoked exactly when the callback is
registered and either some props field differs field-wise or a non-null
transition-spec object was passed as `extraProps` (its keys are absent from
the old props object, so they always count as a difference); the field-wise
comparison itself is equivalent to inequality of the props records. -/
theorem c3_amended_invoke_condition (c : Controls) (vs newVS : MapState)
    (extraProps : Option TransitionProps) (extraDragging : Option Bool) :
    ((updateViewport c vs newVS extraProps extraDragging).calls.any isViewportCall) =
      (c.onViewportChange &&
        (propsDiffer vs.getViewportProps newVS.getViewportProps || extraProps.isSome)) ∧
    (propsDiffer vs.getViewportProps newVS.getViewportProps = true ↔
      vs.getViewportProps ≠ newVS.getViewportProps) := by
  constructor
  · by_cases h : (c.onViewportChange &&
        (propsDiffer vs.getViewportProps newVS.getViewportProps || extraProps.isSome)) = true
    · rw [h]
      simp only [updateViewport, h, if_true]
      simp [isViewportCall]
    · rw [Bool.not_eq_true] at h
      rw [h]
      simp only [updateViewport, h, if_false]
      by_cases hs : c.onStateChange = true
      · simp [hs, isViewportCall]
      · rw [Bool.not_eq_true] at hs
        simp [hs, isViewportCall]
  · simp only [propsDiffer, Bool.or_eq_true, decide_eq_true_eq, ne_eq,
      ViewportProps.ext_iff]
    tauto

/-- The viewport props of the C4 double-tap scenario: zoom 5. -/
def c4Props : ViewportProps :=
  ⟨0, 0, 5, 0, 0, 800, 600⟩

/-- A fully interactive controller holding the C4 props. -/
def c4Controls : Controls where
  onViewportChange := true
  onStateChange := true
  eventManager := some 0
  events := fun _ => none
  state := ⟨idleInteraction, 0⟩
  viewStateProps := c4Props
  scrollZoom := true
  dragPan := true
  dragRotate := true
  doubleClickZoom := true
  touchZoom := true
  touchRotate := false
  keyboard := true

/-- A double-tap event with no function key held. -/
def c4TapEvent : Event where
  type := "doubletap"
  offsetCenterX := 400
  offsetCenterY := 300
  deltaX := 0
  deltaY := 0
  delta := 0
  scale := 1
  rotation := 0
  rightButton := false
  srcEvent := plainSrcEvent

/-- A double-tap event with the control key held. -/
def c4TapFnEvent : Event where
  type := "doubletap"
  offsetCenterX := 400
  offsetCenterY := 300
  deltaX := 0
  deltaY := 0
  delta := 0
  scale := 1
  rotation := 0
  rightButton := false
  srcEvent := ⟨false, false, true, false, 0⟩

/-- C4: on a zoom-5 state with `doubleClickZoom` enabled, a plain double tap
zooms by scale 2 to zoom 10 and a function-key double tap zooms by scale 0.5
to zoom 2.5, both proposed with the linear transition spec of duration
300. -/
theorem c4_doubletap_zoom_scenario :
    viewportCalls (handleEvent c4Controls c4TapEvent).calls =
      [({ c4Props with zoom := 10 }, some LINEAR_TRANSITION_PROPS)] ∧
    viewportCalls (handleEvent c4Controls c4TapFnEvent).calls =
      [({ c4Props with zoom := 2.5 }, some LINEAR_TRANSITION_PROPS)] ∧
    LINEAR_TRANSITION_PROPS.transitionDuration = 300 := by
  refine ⟨?_, ?_, rfl⟩
  · rw [handleEvent_doubletap c4Controls c4TapEvent rfl]
    simp only [onDoubleTap, updateViewport, MapState.fromProps, MapState.zoom,
      MapState.getViewportProps, MapState.getInteractiveState, getCenter]
    norm_num [c4Controls, c4Props, idleInteraction, isFunctionKeyPressed, plainSrcEvent,
      c4TapEvent, viewportCalls]
    rfl
  · rw [handleEvent_doubletap c4Controls c4TapFnEvent rfl]
    simp only [onDoubleTap, updateViewport, MapState.fromProps, MapState.zoom,
      MapState.getViewportProps, MapState.getInteractiveState, getCenter]
    norm_num [c4Controls, c4Props, idleInteraction, isFunctionKeyPressed, c4TapFnEvent,
      viewportCalls]
    rfl

/-- C5: a gesture whose interaction toggle is disabled — a plain `panmove`
with `dragPan` off, a `wheel` with `scrollZoom` off, a `doubletap` with
`doubleClickZoom` off, or a `keydown` with `keyboard` off — returns `false`,
invokes neither callback, and leaves the controller unchanged. -/
theorem c5_disabled_toggle_noop (c : Controls) (e : Event)
    (h : (e.type = "panmove" ∧ isFunctionKeyPressed e = false ∧ e.rightButton = false ∧
            c.dragPan = false) ∨
         (e.type = "wheel" ∧ c.scrollZoom = false) ∨
         (e.type = "doubletap" ∧ c.doubleClickZoom = false) ∨
         (e.type = "keydown" ∧ c.keyboard = false)) :
    handleEvent c e = ⟨c, some false, []⟩ := by
  rcases h with ⟨ht, hf, hr, hd⟩ | ⟨ht, hs⟩ | ⟨ht, hd⟩ | ⟨ht, hk⟩
  · rw [handleEvent_panmove c e ht]
    unfold onPan
    rw [hf, hr]
    simp [onPanMove, hd]
  · rw [handleEvent_wheel c e ht]
    simp [onWheel, hs]
  · rw [handleEvent_doubletap c e ht]
    simp [onDoubleTap, hd]
  · rw [handleEvent_keydown c e ht]
    simp [onKeyDown, hk]

/-- A controller with `scrollZoom` disabled. -/
def c5Controls : Controls :=
  { c1Controls with scrollZoom := false }

/-- Witness for C5: a wheel event on a controller with `scrollZoom` disabled
returns `false` with no callback invocations and no controller change. -/
theorem c5_witness : handleEvent c5Controls c1Event = ⟨c5Controls, some false, []⟩ :=
  c5_disabled_toggle_noop c5Controls c1Event (Or.inr (Or.inl ⟨rfl, rfl⟩))

/-- C6: an event whose type is not one of the nine recognised gesture types
is ignored: `handleEvent` returns `false`, invokes neither callback, and
leaves the controller unchanged. -/
theorem c6_unknown_event_noop (c : Controls) (e : Event)
    (h : e.type ∉ ALL_GESTURE_EVENTS) :
    handleEvent c e = ⟨c, some false, []⟩ :=
  handleEvent_unknown c e h

/-- An event of an unrecognised type. -/
def c6Event : Event where
  type := "click"
  offsetCenterX := 400
  offsetCenterY := 300
  deltaX := 0
  deltaY := 0
  delta := 0
  scale := 1
  rotation := 0
  rightButton := false
  srcEvent := plainSrcEvent

/-- Witness for C6: a `click` event is ignored by a fully interactive
controller. -/
theorem c6_witness : handleEvent c1Controls c6Event = ⟨c1Controls, some false, []⟩ :=
  c6_unknown_event_noop c1Controls c6Event (by decide)

/-- C8: the pitch delta fraction of the map-like pan-to-rotate path equals
`deltaY / (startY - height) * PITCH_ACCEL` for a downward drag whose start
is more than the pitch threshold away from the bottom edge, equals
`1 - centerY / startY` for an upward drag starting below the threshold
line, and the value passed to `rotate` is the raw value clamped into
`[-1, 1]`. -/
theorem c8_pan_rotate_map_delta_scale (height startY centerY deltaY : ℝ) :
    (deltaY > 0 → |height - startY| > PITCH_MOUSE_THRESHOLD →
      panRotateMapRawDeltaScaleY height startY centerY deltaY =
        deltaY / (startY - height) * PITCH_ACCEL) ∧
    (deltaY < 0 → startY > PITCH_MOUSE_THRESHOLD →
      panRotateMapRawDeltaScaleY height startY centerY deltaY = 1 - centerY / startY) ∧
    panRotateMapDeltaScaleY height startY centerY deltaY =
      min 1 (max (-1) (panRotateMapRawDeltaScaleY height startY centerY deltaY)) ∧
    -1 ≤ panRotateMapDeltaScaleY height startY centerY deltaY ∧
    panRotateMapDeltaScaleY height startY centerY deltaY ≤ 1 := by
  refine ⟨fun h1 h2 => ?_, fun h1 h2 => ?_, rfl, ?_, ?_⟩
  · unfold panRotateMapRawDeltaScaleY
    rw [if_pos h1, if_pos h2]
  · unfold panRotateMapRawDeltaScaleY
    rw [if_neg (not_lt.mpr (le_of_lt h1)), if_pos h1, if_pos h2]
  · exact le_min (by norm_num) (le_max_left _ _)
  · exact min_le_left _ _

/-- Witness for C8: concrete instances of both branch formulas and of the
clamp bounds. -/
theorem c8_witness :
    panRotateMapRawDeltaScaleY 600 400 500 100 = 100 / (400 - 600) * PITCH_ACCEL ∧
    panRotateMapRawDeltaScaleY 600 400 300 (-100) = 1 - 300 / 400 ∧
    -1 ≤ panRotateMapDeltaScaleY 600 400 500 100 ∧
    panRotateMapDeltaScaleY 600 400 500 100 ≤ 1 := by
  refine ⟨(c8_pan_rotate_map_delta_scale 600 400 500 100).1 (by norm_num) ?_,
    (c8_pan_rotate_map_delta_scale 600 400 300 (-100)).2.1 (by norm_num) ?_,
    (c8_pan_rotate_map_delta_scale 600 400 500 100).2.2.2.1,
    (c8_pan_rotate_map_delta_scale 600 400 500 100).2.2.2.2⟩
  · rw [PITCH_MOUSE_THRESHOLD]
    norm_num
  · rw [PITCH_MOUSE_THRESHOLD]
    norm_num

lemma stateDragging_append (l1 l2 : List Call) :
    stateDragging (l1 ++ l2) = stateDragging l1 ++ stateDragging l2 :=
  List.filterMap_append l1 l2 _

lemma stateDragging_vcCalls (P : Prop) [Decidable P] (p : ViewportProps)
    (ex : Option TransitionProps) :
    stateDragging (if P then [Call.viewportChange p ex] else []) = [] := by
  split <;> rfl

lemma stateDragging_scCalls (P : Prop) [Decidable P] (s : CtrlState) :
    stateDragging (if P then [Call.stateChange s] else []) =
      if P then [s.interaction.isDragging] else [] := by
  split <;> rfl

lemma panstart_step (c : Controls) (e : Event) (ht : e.type = "panstart")
    (hs : c.onStateChange = true) :
    stateDragging (handleEvent c e).calls = [true] ∧
    (handleEvent c e).controls.onStateChange = c.onStateChange ∧
    (handleEvent c e).controls.dragPan = c.dragPan ∧
    (handleEvent c e).controls.viewStateProps = c.viewStateProps := by
  rw [handleEvent_panstart c e ht]
  unfold onPanStart updateViewport
  refine ⟨?_, rfl, rfl, rfl⟩
  simp [stateDragging_append, stateDragging_vcCalls, stateDragging_scCalls, hs]
  rfl

lemma panmove_step (c : Controls) (e : Event) (ht : e.type = "panmove")
    (hf : isFunctionKeyPressed e = false) (hr : e.rightButton = false)
    (hd : c.dragPan = true) (hs : c.onStateChange = true) :
    stateDragging (handleEvent c e).calls = [true] ∧
    (handleEvent c e).controls.onStateChange = c.onStateChange ∧
    (handleEvent c e).controls.dragPan = c.dragPan ∧
    (handleEvent c e).controls.viewStateProps = c.viewStateProps := by
  have hres : handleEvent c e =
      updateViewport c (MapState.fromProps c.viewStateProps c.state)
        ((MapState.fromProps c.viewStateProps c.state).pan (getCenter e))
        (some NO_TRANSITION_PROPS) (some true) := by
    rw [handleEvent_panmove c e ht]
    unfold onPan
    rw [hf, hr]
    simp only [Bool.or_self, Bool.false_eq_true, if_false]
    unfold onPanMove
    rw [hd]
    simp only [Bool.not_true, Bool.false_eq_true, if_false]
  rw [hres]
  refine ⟨?_, rfl, rfl, rfl⟩
  simp [updateViewport, stateDragging_append, stateDragging_vcCalls,
    stateDragging_scCalls, hs]
  rfl

lemma panend_step (c : Controls) (e : Event) (ht : e.type = "panend")
    (hs : c.onStateChange = true) :
    stateDragging (handleEvent c e).calls = [false] := by
  rw [handleEvent_panend c e ht]
  unfold onPanEnd updateViewport
  simp [stateDragging_append, stateDragging_vcCalls, stateDragging_scCalls, hs]
  rfl

lemma pan_moves_trace (moves : List Event) (c : Controls) (elast : Event)
    (hs : c.onStateChange = true) (hd : c.dragPan = true)
    (hm : ∀ e ∈ moves, e.type = "panmove" ∧ isFunctionKeyPressed e = false ∧
      e.rightButton = false)
    (hl : elast.type = "panend") :
    stateDragging (processEvents c (moves ++ [elast])).2 =
      List.replicate moves.length true ++ [false] := by
  induction moves generalizing c with
  | nil =>
    simp only [List.nil_append, processEvents, stateDragging_append]
    rw [panend_step c elast hl hs]
    rfl
  | cons m rest ih =>
    have hm0 := hm m (List.mem_cons_self m rest)
    have step := panmove_step c m hm0.1 hm0.2.1 hm0.2.2 hd hs
    simp only [List.cons_append, processEvents, stateDragging_append, List.append_eq]
    rw [step.1, ih (handleEvent c m).controls (step.2.1.trans hs)
      (step.2.2.1.trans hd) (fun e he => hm e (List.mem_cons_of_mem m he))]
    simp [List.replicate_succ]

/-- C9: in a `panstart`, then any number of plain `panmove`, then `panend`
sequence handled by a controller with `dragPan` enabled and a registered
`onStateChange`, every `onStateChange` invocation up to and including the
last `panmove` reports `isDragging = true`, and the final invocation —
triggered by `panend` — reports `isDragging = false`. -/
theorem c9_pan_sequence_dragging (c : Controls) (estart : Event) (moves : List Event)
    (eend : Event) (hs : c.onStateChange = true) (hd : c.dragPan = true)
    (h0 : estart.type = "panstart") (h1 : eend.type = "panend")
    (hm : ∀ e ∈ moves, e.type = "panmove" ∧ isFunctionKeyPressed e = false ∧
      e.rightButton = false) :
    stateDragging (processEvents c (estart :: (moves ++ [eend]))).2 =
      List.replicate (moves.length + 1) true ++ [false] := by
  have step := panstart_step c estart h0 hs
  simp only [processEvents, stateDragging_append]
  rw [step.1, pan_moves_trace moves (handleEvent c estart).controls eend
    (step.2.1.trans hs) (step.2.2.1.trans hd) hm h1]
  simp [List.replicate_succ]

/-- A `panstart` event at the center of the viewport. -/
def c9Start : Event where
  type := "panstart"
  offsetCenterX := 400
  offsetCenterY := 300
  deltaX := 0
  deltaY := 0
  delta := 0
  scale := 1
  rotation := 0
  rightButton := false
  srcEvent := plainSrcEvent

/-- A plain `panmove` event. -/
def c9Move : Event where
  type := "panmove"
  offsetCenterX := 410
  offsetCenterY := 310
  deltaX := 10
  deltaY := 10
  delta := 0
  scale := 1
  rotation := 0
  rightButton := false
  srcEvent := plainSrcEvent

/-- A `panend` event. -/
def c9End : Event where
  type := "panend"
  offsetCenterX := 410
  offsetCenterY := 310
  deltaX := 0
  deltaY := 0
  delta := 0
  scale := 1
  rotation := 0
  rightButton := false
  srcEvent := plainSrcEvent

/-- Witness for C9: a `panstart`, two `panmove`, `panend` sequence reports
`isDragging` as `[true, true, true, false]`. -/
theorem c9_witness :
    stateDragging (processEvents c1Controls (c9Start :: ([c9Move, c9Move] ++ [c9End]))).2 =
      List.replicate 3 true ++ [false] :=
  c9_pan_sequence_dragging c1Controls c9Start [c9Move, c9Move] c9End rfl rfl rfl rfl
    (by
      intro e he
      simp only [List.mem_cons, List.not_mem_nil, or_false] at he
      rcases he with h | h <;> subst h <;> exact ⟨rfl, rfl, rfl⟩)

/-- The enabling condition `setOptions` computes for the event group
containing a given event name: `scrollZoom` for wheel, `dragPan || dragRotate`
for the pan group, `touchZoom || touchRotate` for the pinch group,
`doubleClickZoom` for double tap, `keyboard` for keydown. -/
def groupToggle (c : Controls) (m : String) : Bool :=
  if m ∈ WHEEL_EVENTS then c.scrollZoom
  else if m ∈ PAN_EVENTS then c.dragPan || c.dragRotate
  else if m ∈ PINCH_EVENTS then c.touchZoom || c.touchRotate
  else if m ∈ DOUBLE_TAP_EVENTS then c.doubleClickZoom
  else c.keyboard

lemma foldl_toggleStep_apply (b : Bool) (names : List String) (ev : String → Option Bool)
    (m : String) :
    (names.foldl (fun acc n => toggleStep acc n b) ev) m =
      if m ∈ names then some b else ev m := by
  induction names generalizing ev with
  | nil => simp
  | cons n rest ih =>
    rw [List.foldl_cons, ih]
    have hstep : toggleStep ev n b m = if m = n then some b else ev m := by
      unfold toggleStep
      by_cases hne : ev n ≠ some b
      · rw [if_pos hne, Function.update_apply]
      · rw [if_neg hne]
        push_neg at hne
        by_cases hmn : m = n
        · rw [if_pos hmn, hmn, hne]
        · rw [if_neg hmn]
    by_cases hmr : m ∈ rest
    · rw [if_pos hmr, if_pos (List.mem_cons_of_mem n hmr)]
    · rw [if_neg hmr, hstep]
      by_cases hmn : m = n
      · rw [if_pos hmn, if_pos (by rw [hmn]; exact List.mem_cons_self n rest)]
      · rw [if_neg hmn, if_neg (by simp [List.mem_cons, hmn, hmr])]

lemma toggleEvents_apply (em : Option Nat) (ev : String → Option Bool)
    (names : List String) (b : Bool) (m : String) :
    toggleEvents em ev names b m =
      if em.isSome = true then (if m ∈ names then some b else ev m) else ev m := by
  unfold toggleEvents
  by_cases hem : em.isSome = true
  · rw [if_pos hem, if_pos hem, foldl_toggleStep_apply]
  · rw [if_neg hem, if_neg hem]

lemma some_beq_some_true (x : Bool) : (some x == some true) = x := by
  cases x <;> rfl

lemma setOptions_subscribed_char (c : Controls) (opts : Options) (m : String)
    (hm : m ∈ ALL_GESTURE_EVENTS) :
    subscribedB (setOptions c opts) m =
      ((opts.eventManager.getD c.eventManager).isSome &&
        ((opts.onViewportChange.getD false) && groupToggle (setOptions c opts) m)) := by
  simp only [ALL_GESTURE_EVENTS, WHEEL_EVENTS, PAN_EVENTS, PINCH_EVENTS,
    DOUBLE_TAP_EVENTS, KEYBOARD_EVENTS, List.append_assoc, List.cons_append,
    List.nil_append, List.mem_cons, List.not_mem_nil, or_false] at hm
  by_cases hem : (opts.eventManager.getD c.eventManager).isSome = true
  · rcases hm with h | h | h | h | h | h | h | h | h <;> subst h <;>
      simp [subscribedB, setOptions, toggleEvents_apply, groupToggle, hem,
        some_beq_some_true, WHEEL_EVENTS, PAN_EVENTS, PINCH_EVENTS,
        DOUBLE_TAP_EVENTS, KEYBOARD_EVENTS]
  · rw [Bool.not_eq_true] at hem
    simp [subscribedB, setOptions, hem]

/-- C7: after any `setOptions` call that omits `onViewportChange`, none of
the nine gesture event names is subscribed on the event source, whatever the
individual toggles are; conversely, an event name can only be subscribed
after `setOptions` when `onViewportChange` is set and the enabling condition
of its event group holds. -/
theorem c7_subscription_gating (c : Controls) (opts : Options) :
    (opts.onViewportChange = none →
      ∀ m ∈ ALL_GESTURE_EVENTS, subscribedB (setOptions c opts) m = false) ∧
    (∀ m ∈ ALL_GESTURE_EVENTS, subscribedB (setOptions c opts) m = true →
      (setOptions c opts).onViewportChange = true ∧
      groupToggle (setOptions c opts) m = true) := by
  constructor
  · intro h m hm
    rw [setOptions_subscribed_char c opts m hm, h]
    simp
  · intro m hm hsub
    rw [setOptions_subscribed_char c opts m hm] at hsub
    simp only [Bool.and_eq_true] at hsub
    refine ⟨?_, hsub.2.2⟩
    have hvc : (setOptions c opts).onViewportChange = opts.onViewportChange.getD false :=
      rfl
    rw [hvc]
    exact hsub.2.1

/-- A reconfiguration options object that sets nothing but the props. -/
def c7OptsNone : Options :=
  { props := c1Props }

/-- A reconfiguration options object that sets only the change callback. -/
def c7OptsOn : Options :=
  { onViewportChange := some true, props := c1Props }

/-- Witness for C7: with `onViewportChange` omitted the wheel gesture is not
subscribed; with it set, a subscribed wheel gesture implies the callback is
registered and `scrollZoom` is enabled. -/
theorem c7_witness :
    subscribedB (setOptions c1Controls c7OptsNone) "wheel" = false ∧
    ((setOptions c1Controls c7OptsOn).onViewportChange = true ∧
      groupToggle (setOptions c1Controls c7OptsOn) "wheel" = true) :=
  ⟨(c7_subscription_gating c1Controls c7OptsNone).1 rfl "wheel" (by decide),
    (c7_subscription_gating c1Controls c7OptsOn).2 "wheel" (by decide) (by decide)⟩

/-- C10: `setOptions` keeps the previous `onStateChange` and `eventManager`
when the options object omits them, but an omitted `onViewportChange`
becomes unset, which in turn unsubscribes every gesture event: omitting the
change callback in a reconfiguration silently disables all interaction. -/
theorem c10_set_options_retention (c : Controls) (opts : Options) :
    (opts.onStateChange = none → (setOptions c opts).onStateChange = c.onStateChange) ∧
    (opts.eventManager = none → (setOptions c opts).eventManager = c.eventManager) ∧
    (opts.onViewportChange = none →
      (setOptions c opts).onViewportChange = false ∧
      ∀ m ∈ ALL_GESTURE_EVENTS, subscribedB (setOptions c opts) m = false) := by
  refine ⟨fun h => ?_, fun h => ?_, fun h => ?_⟩
  · have hp : (setOptions c opts).onStateChange = opts.onStateChange.getD c.onStateChange :=
      rfl
    rw [hp, h, Option.getD_none]
  · have hp : (setOptions c opts).eventManager = opts.eventManager.getD c.eventManager :=
      rfl
    rw [hp, h, Option.getD_none]
  · constructor
    · have hp : (setOptions c opts).onViewportChange = opts.onViewportChange.getD false :=
        rfl
      rw [hp, h, Option.getD_none]
    · intro m hm
      rw [setOptions_subscribed_char c opts m hm, h]
      simp

/-- A reconfiguration options object for the C10 witness: every option
omitted. -/
def c10Opts : Options :=
  { props := c1Props }

/-- Witness for C10: reconfiguring a fully interactive controller with an
options object that omits everything keeps `onStateChange` and the event
manager, clears `onViewportChange`, and unsubscribes the pan gesture. -/
theorem c10_witness :
    (setOptions c1Controls c10Opts).onStateChange = c1Controls.onStateChange ∧
    (setOptions c1Controls c10Opts).eventManager = c1Controls.eventManager ∧
    (setOptions c1Controls c10Opts).onViewportChange = false ∧
    subscribedB (setOptions c1Controls c10Opts) "panmove" = false :=
  ⟨(c10_set_options_retention c1Controls c10Opts).1 rfl,
    (c10_set_options_retention c1Controls c10Opts).2.1 rfl,
    ((c10_set_options_retention c1Controls c10Opts).2.2 rfl).1,
    ((c10_set_options_retention c1Controls c10Opts).2.2 rfl).2 "panmove" (by decide)⟩

end DeckGL
